import Mathlib

/-!
Verification development for the receiver app's connection-management core
(`SocketService`): publisher discovery, connection lifecycle, per-event
payload decoding (base64 image transform, little-endian float32 frame rate,
structured vitals), and the callback notification contract.

Modelling conventions:
* JavaScript strings are embedded as `List Char`; binary buffers
  (`ArrayBuffer` / `Uint8Array` contents) as `List (Fin 256)`.
* A handler body that can throw is embedded as `Except JsErr _`; a
  `try/catch` wrapper turns the error case into a dropped update, so a
  wrapped handler always returns `Except.ok`.  `Except.ok none` means the
  update was dropped without firing the callback; `Except.ok (some v)`
  means the callback fired with `v`.
-/

/-- JavaScript exception kinds that the modelled code can raise. -/
inductive JsErr where
  | typeError
  | rangeError
  | invalidCharacterError
deriving DecidableEq

/-- A JavaScript value of type `number | string`, as used by vitals fields. -/
inductive JsPrim where
  | num (q : ℚ)
  | str (s : List Char)
deriving DecidableEq

/-- True exactly when the handler body did not raise. -/
def doesNotRaise {α : Type} : Except JsErr α → Bool
  | Except.ok _ => true
  | Except.error _ => false

/-! ## Base64 (model of the runtime `btoa` used by `arrayBufferToBase64`) -/

/-- The base64 alphabet: sextet value to character. -/
def b64Char (n : Nat) : Char :=
  if n < 26 then Char.ofNat (65 + n)
  else if n < 52 then Char.ofNat (97 + (n - 26))
  else if n < 62 then Char.ofNat (48 + (n - 52))
  else if n = 62 then '+'
  else '/'

/-- Inverse of the base64 alphabet: character back to sextet value. -/
def b64Index (c : Char) : Option Nat :=
  let n := c.toNat
  if 65 ≤ n ∧ n ≤ 90 then some (n - 65)
  else if 97 ≤ n ∧ n ≤ 122 then some (26 + (n - 97))
  else if 48 ≤ n ∧ n ≤ 57 then some (52 + (n - 48))
  else if n = 43 then some 62
  else if n = 47 then some 63
  else none

/-- Standard base64 encoding of a byte sequence (the transform `btoa`
applies to a string whose char codes are the bytes). -/
def b64EncodeBytes : List Nat → List Char
  | [] => []
  | [b1] => [b64Char (b1 / 4), b64Char (b1 % 4 * 16), '=', '=']
  | [b1, b2] =>
      [b64Char (b1 / 4), b64Char (b1 % 4 * 16 + b2 / 16), b64Char (b2 % 16 * 4), '=']
  | b1 :: b2 :: b3 :: rest =>
      b64Char (b1 / 4) :: b64Char (b1 % 4 * 16 + b2 / 16) ::
      b64Char (b2 % 16 * 4 + b3 / 64) :: b64Char (b3 % 64) :: b64EncodeBytes rest

/-- Standard base64 decoding, back to the byte sequence. -/
def b64DecodeChars : List Char → Option (List Nat)
  | [] => some []
  | c1 :: c2 :: c3 :: c4 :: rest =>
    match b64Index c1, b64Index c2 with
    | some n1, some n2 =>
      if c3 = '=' then
        if c4 = '=' ∧ rest = [] then some [n1 * 4 + n2 / 16] else none
      else
        match b64Index c3 with
        | some n3 =>
          if c4 = '=' then
            if rest = [] then some [n1 * 4 + n2 / 16, n2 % 16 * 16 + n3 / 4] else none
          else
            match b64Index c4 with
            | some n4 =>
              match b64DecodeChars rest with
              | some bs => some ((n1 * 4 + n2 / 16) :: (n2 % 16 * 16 + n3 / 4) :: (n3 % 4 * 64 + n4) :: bs)
              | none => none
            | none => none
        | none => none
    | _, _ => none
  | _ => none

/-- `btoa`: takes a string (here: its char-code sequence) and base64-encodes
it; raises `InvalidCharacterError` on a code unit above 255. -/
def btoaFn (codeUnits : List Nat) : Except JsErr (List Char) :=
  if codeUnits.all (fun c => c < 256) then Except.ok (b64EncodeBytes codeUnits)
  else Except.error JsErr.invalidCharacterError

/-- `arrayBufferToBase64`: builds the binary string whose char codes are the
bytes of the `Uint8Array` (via `String.fromCharCode`) and applies `btoa`. -/
def arrayBufferToBase64 (u : List (Fin 256)) : Except JsErr (List Char) :=
  btoaFn (u.map Fin.val)

/-! ## Frame-rate decoding (`bytesToFloat`, `DataView.getFloat32` little-endian) -/

/-- Result of reading an IEEE-754 binary32 value, with finite values taken
exactly as rationals. -/
inductive F32 where
  | finite (q : ℚ)
  | infinite (neg : Bool)
  | nan
deriving DecidableEq

/-- Decode four bytes as an IEEE-754 single-precision float in little-endian
byte order (the semantics of `getFloat32(0, true)`). -/
def decodeFloat32LE (b0 b1 b2 b3 : Fin 256) : F32 :=
  let w : Nat := b0.val + b1.val * 256 + b2.val * 65536 + b3.val * 16777216
  let sign := w / 2147483648
  let expo := w / 8388608 % 256
  let frac := w % 8388608
  if expo = 255 then
    if frac = 0 then F32.infinite (sign = 1) else F32.nan
  else
    let mant : ℚ := if expo = 0 then (frac : ℚ) else ((8388608 + frac : Nat) : ℚ)
    let e : Nat := if expo = 0 then 1 else expo
    let mag : ℚ := mant * 2 ^ e / 2 ^ 150
    F32.finite (if sign = 1 then -mag else mag)

/-- `bytesToFloat`: constructs a `DataView` over the buffer and calls
`getFloat32(0, true)`; that call reads the first four bytes and raises
`RangeError` when the buffer is shorter than four bytes. -/
def bytesToFloat (buffer : List (Fin 256)) : Except JsErr F32 :=
  match buffer with
  | b0 :: b1 :: b2 :: b3 :: _ => Except.ok (decodeFloat32LE b0 b1 b2 b3)
  | _ => Except.error JsErr.rangeError

/-- The `frame_rate` event handler: `const fps = this.bytesToFloat(data);
this.onFPSUpdate?.(fps);` — it installs no `try/catch`, so an error from
`bytesToFloat` escapes the handler.  `Except.ok v` means the frame-rate
callback fired with `v`. -/
def frameRateHandler (buffer : List (Fin 256)) : Except JsErr F32 :=
  bytesToFloat buffer

/-! ## Vitals decoding (`handleChipUpdate`) -/

/-- The fields of `data.chip_data`; `none` models an absent (undefined)
member. -/
structure ChipInner where
  heartrate : Option JsPrim
  resprate : Option JsPrim
  temp : Option JsPrim
  chip_img : Option (List Char)
deriving DecidableEq

/-- A wire `ChipData` value: `none` models `data` itself being
null/undefined; `some none` models an object whose `chip_data` member is
absent or null. -/
abbrev ChipDataM := Option (Option ChipInner)

/-- The argument tuple passed to the vitals callback. -/
structure VitalsCall where
  heartrate : Option JsPrim
  resprate : Option JsPrim
  temp : Option JsPrim
  image : Option (List Char)
deriving DecidableEq

/-- Body of `handleChipUpdate` before the `catch`: reading `data.chip_data`
on a null `data` raises `TypeError`; reading `chipData.heartrate` on an
undefined `chipData` raises `TypeError`; otherwise the vitals object is
built from the fields as they are (absent fields stay undefined) and the
callback fires with it together with `chipData.chip_img`. -/
def handleChipUpdateBody : ChipDataM → Except JsErr VitalsCall
  | none => Except.error JsErr.typeError
  | some none => Except.error JsErr.typeError
  | some (some c) => Except.ok ⟨c.heartrate, c.resprate, c.temp, c.chip_img⟩

/-- `handleChipUpdate` with its `try/catch`: a raised error is logged and the
update dropped (`Except.ok none`); otherwise the callback fires. -/
def handleChipUpdate (d : ChipDataM) : Except JsErr (Option VitalsCall) :=
  Except.ok (match handleChipUpdateBody d with
    | Except.ok v => some v
    | Except.error _ => none)

/-! ## Camera-feed handlers (`update_feed`, `thermal_image`) -/

/-- The runtime shape of an `update_feed` payload. -/
inductive FeedPayload where
  | arrayBuffer (bytes : List (Fin 256))
  | uint8Array (bytes : List (Fin 256))
  | str (s : List Char)
  | other
deriving DecidableEq

/-- Body of the `update_feed` handler before the `catch`: binary payloads go
through `arrayBufferToBase64`, a string passes through unchanged, any other
shape is logged and dropped without firing the callback. -/
def updateFeedHandlerBody : FeedPayload → Except JsErr (Option (List Char))
  | FeedPayload.arrayBuffer u => (arrayBufferToBase64 u).map some
  | FeedPayload.uint8Array u => (arrayBufferToBase64 u).map some
  | FeedPayload.str s => Except.ok (some s)
  | FeedPayload.other => Except.ok none

/-- The `update_feed` handler with its `try/catch`. -/
def updateFeedHandler (p : FeedPayload) : Except JsErr (Option (List Char)) :=
  Except.ok (match updateFeedHandlerBody p with
    | Except.ok r => r
    | Except.error _ => none)

/-- The `thermal_image` handler with its `try/catch`: always the binary
`arrayBufferToBase64` path (no string fallback). -/
def thermalImageHandler (u : List (Fin 256)) : Except JsErr (Option (List Char)) :=
  Except.ok (match arrayBufferToBase64 u with
    | Except.ok s => some s
    | Except.error _ => none)

/-! ## Publisher URL handling -/

/-- The scheme part of every publisher URL the service builds. -/
def httpScheme : List Char := ['h', 't', 't', 'p', ':', '/', '/']

/-- The URL the constructor and `changeConnection` store:
`http://<ip>:<port>`. -/
def mkPublisherUrl (ip : List Char) (port : Nat) : List Char :=
  httpScheme ++ (ip ++ ':' :: (toString port).toList)

/-- Hostname extraction performed by `new URL(url).hostname` on the URLs
this service builds: strip the scheme, then take up to the port separator
or a path separator. -/
def parseHostname (url : List Char) : Option (List Char) :=
  if url.take 7 = httpScheme then
    some ((url.drop 7).takeWhile (fun c => !(c == ':') && !(c == '/')))
  else none

/-! ## Connection lifecycle state machine

The `SocketService` instance state (`publisherUrl`, `isConnected`,
`this.socket`) together with the environment's view of every socket.io
client socket ever created by `io(...)`.  A socket whose engine is open is
either still attempting to connect (with socket.io's auto-connect and
reconnection policy) or connected; `socket.disconnect()` closes the engine. -/

/-- One socket.io client socket created by `io(url, ...)`. -/
structure SockRec where
  url : List Char
  engineOpen : Bool
  connected : Bool
deriving DecidableEq

/-- The service state plus the environment's list of created sockets;
`current` is the index of `this.socket` in `socks`. -/
structure ServiceState where
  publisherUrl : List Char
  isConnected : Bool
  current : Option Nat
  socks : List SockRec
deriving DecidableEq

/-- Connection status values passed to the status callback. -/
inductive ConnStatus where
  | Active
  | Inactive
deriving DecidableEq

/-- One invocation of the connection-status callback. -/
abbrev Notif := ConnStatus × List Char

/-- The constructor: stores `http://<ip>:<port>`; no socket yet. -/
def mkService (ip : List Char) (port : Nat) : ServiceState :=
  { publisherUrl := mkPublisherUrl ip port, isConnected := false,
    current := none, socks := [] }

/-- `socket.disconnect()` result on a socket record: engine closed, link
down. -/
def closeSock (s : SockRec) : SockRec :=
  { s with engineOpen := false, connected := false }

/-- `getIPFromUrl`: parse the configured URL, return its hostname, or the
fallback on a parse failure. -/
def getIPFromUrl (st : ServiceState) : List Char :=
  match parseHostname st.publisherUrl with
  | some h => h
  | none => ("Unknown").toList

/-- `getConnectedIP` simply delegates to `getIPFromUrl`. -/
def getConnectedIP (st : ServiceState) : List Char :=
  getIPFromUrl st

/-- The synchronous part of `connect()`: `if (this.socket?.connected)
this.socket.disconnect();` — disconnecting a connected socket fires its
`disconnect` handler (status callback `Inactive`/`Disconnected`, and
`isConnected` cleared) — then a fresh socket is created with
`io(this.publisherUrl, ...)` and becomes `this.socket`. -/
def connect (st : ServiceState) : ServiceState × List Notif :=
  let prior : ServiceState × List Notif :=
    match st.current with
    | some i =>
      match st.socks[i]? with
      | some s =>
        if s.connected then
          ({ st with socks := st.socks.set i (closeSock s), isConnected := false },
           [(ConnStatus.Inactive, ("Disconnected").toList)])
        else (st, [])
      | none => (st, [])
    | none => (st, [])
  ({ prior.1 with
      socks := prior.1.socks ++ [{ url := prior.1.publisherUrl, engineOpen := true, connected := false }],
      current := some prior.1.socks.length },
   prior.2)

/-- Public `disconnect()`: `if (this.socket?.connected)
this.socket.disconnect();` (which fires the socket's `disconnect` handler),
then `this.isConnected = false`. -/
def disconnect (st : ServiceState) : ServiceState × List Notif :=
  match st.current with
  | some i =>
    match st.socks[i]? with
    | some s =>
      if s.connected then
        ({ st with socks := st.socks.set i (closeSock s), isConnected := false },
         [(ConnStatus.Inactive, ("Disconnected").toList)])
      else ({ st with isConnected := false }, [])
    | none => ({ st with isConnected := false }, [])
  | none => ({ st with isConnected := false }, [])

/-- `changeConnection(newIP, port)`: overwrite `publisherUrl`, then
`connect()`. -/
def changeConnection (st : ServiceState) (ip : List Char) (port : Nat) :
    ServiceState × List Notif :=
  connect { st with publisherUrl := mkPublisherUrl ip port }

/-- Transport delivers the `connect` event on socket `i` (handshake
success): only possible while the socket's engine is open and it is not yet
connected; the registered handler sets `isConnected` and fires the status
callback with `Active` and the current URL's hostname. -/
def onTransportConnect (st : ServiceState) (i : Nat) : ServiceState × List Notif :=
  match st.socks[i]? with
  | some s =>
    if s.engineOpen && !s.connected then
      ({ st with socks := st.socks.set i { s with connected := true }, isConnected := true },
       [(ConnStatus.Active, getIPFromUrl st)])
    else (st, [])
  | none => (st, [])

/-- Transport delivers the `disconnect` event on socket `i` (link drop or
client-initiated close): the handler clears `isConnected` and fires the
status callback with `Inactive`/`Disconnected`.  After a server-side drop
the engine stays open for socket.io's auto-reconnect attempts. -/
def onTransportDisconnect (st : ServiceState) (i : Nat) : ServiceState × List Notif :=
  match st.socks[i]? with
  | some s =>
    if s.engineOpen && s.connected then
      ({ st with socks := st.socks.set i { s with connected := false }, isConnected := false },
       [(ConnStatus.Inactive, ("Disconnected").toList)])
    else (st, [])
  | none => (st, [])

/-- Transport delivers a `connect_error` event on socket `i` (failed
attempt): the handler clears `isConnected` and fires the status callback
with `Inactive`/`Connection Error`. -/
def onTransportError (st : ServiceState) (i : Nat) : ServiceState × List Notif :=
  match st.socks[i]? with
  | some s =>
    if s.engineOpen && !s.connected then
      ({ st with isConnected := false },
       [(ConnStatus.Inactive, ("Connection Error").toList)])
    else (st, [])
  | none => (st, [])

/-- An interaction step: a consumer API call or a transport event. -/
inductive Act where
  | userConnect
  | userDisconnect
  | userChange (ip : List Char) (port : Nat)
  | tConnect (i : Nat)
  | tDisconnect (i : Nat)
  | tError (i : Nat)
deriving DecidableEq

/-- Whether an action is a transport-originated event. -/
def Act.isTransport : Act → Bool
  | Act.tConnect _ => true
  | Act.tDisconnect _ => true
  | Act.tError _ => true
  | _ => false

/-- Execute one action. -/
def step (st : ServiceState) : Act → ServiceState × List Notif
  | Act.userConnect => connect st
  | Act.userDisconnect => disconnect st
  | Act.userChange ip port => changeConnection st ip port
  | Act.tConnect i => onTransportConnect st i
  | Act.tDisconnect i => onTransportDisconnect st i
  | Act.tError i => onTransportError st i

/-- Execute a sequence of actions, collecting every status-callback
invocation in order. -/
def run (st : ServiceState) : List Act → ServiceState × List Notif
  | [] => (st, [])
  | a :: rest =>
    ((run (step st a).1 rest).1, (step st a).2 ++ (run (step st a).1 rest).2)

/-- Number of live sockets: engines still attempting or connected. -/
def liveCount (st : ServiceState) : Nat :=
  (st.socks.filter (fun s => s.engineOpen)).length

/-- The service believes it is connected only when its current socket
really is. -/
def CurrentConnected (st : ServiceState) : Prop :=
  ∃ i s, st.current = some i ∧ st.socks[i]? = some s ∧ s.connected = true

/-! ## Discovery and the liveness probe -/

/-- Outcome of one `fetch` of the ping URL, as observed by the caller. -/
inductive ProbeOutcome where
  | response (status : Nat)
  | networkError
  | timedOut
deriving DecidableEq

/-- The request `testConnection` issues. -/
structure HttpRequest where
  method : List Char
  url : List Char
  timeoutMs : Nat
deriving DecidableEq

/-- `testConnection` performs `fetch('http://<ip>:<port>/ping', {method:
'GET', signal})` with an abort scheduled at 2000 ms. -/
def pingRequest (ip : List Char) (port : Nat) : HttpRequest :=
  { method := ("GET").toList,
    url := httpScheme ++ ip ++ ':' :: (toString port).toList ++ ("/ping").toList,
    timeoutMs := 2000 }

/-- `Response.ok` of the Fetch API: status in the 2xx range. -/
def responseOk (status : Nat) : Bool :=
  200 ≤ status && status < 300

/-- `testConnection`'s verdict: `response.ok && response.status === 200`
when a response arrived inside the window; an abort (timeout) or network
failure is caught and yields `false`. -/
def testConnection : ProbeOutcome → Bool
  | ProbeOutcome.response status => responseOk status && status == 200
  | ProbeOutcome.networkError => false
  | ProbeOutcome.timedOut => false

/-- The discovery loop over a candidate list: probe in order, stop at the
first success; also records which candidates were probed, in order. -/
def discoverLoop (probe : List Char → Bool) :
    List (List Char) → Option (List Char) × List (List Char)
  | [] => (none, [])
  | ip :: rest =>
    if probe ip then (some ip, [ip])
    else ((discoverLoop probe rest).1, ip :: (discoverLoop probe rest).2)

/-- The candidate list hardcoded in `discoverPublisher`. -/
def testIPs : List (List Char) :=
  [("10.0.0.32").toList, ("127.0.0.1").toList, ("localhost").toList]

/-- `discoverPublisher`: run the loop over the known candidate list; the
surrounding `try/catch` returns `null` on any error, and the loop itself
cannot throw because `testConnection` catches its own failures. -/
def discoverPublisher (probe : List Char → Bool) : Option (List Char) :=
  (discoverLoop probe testIPs).1

/-! ## Helper lemmas -/

theorem b64Index_b64Char : ∀ n, n < 64 → b64Index (b64Char n) = some n := by
  decide

theorem b64Char_ne_pad : ∀ n, n < 64 → ¬(b64Char n = '=') := by
  decide

theorem b64_roundtrip (bs : List Nat) (h : ∀ b ∈ bs, b < 256) :
    b64DecodeChars (b64EncodeBytes bs) = some bs := by
  induction bs using b64EncodeBytes.induct with
  | case1 => rfl
  | case2 b1 =>
    have hb1 : b1 < 256 := h b1 (by simp)
    have h1 := b64Index_b64Char (b1 / 4) (by omega)
    have h2 := b64Index_b64Char (b1 % 4 * 16) (by omega)
    simp [b64EncodeBytes, b64DecodeChars, h1, h2]
    omega
  | case3 b1 b2 =>
    have hb1 : b1 < 256 := h b1 (by simp)
    have hb2 : b2 < 256 := h b2 (by simp)
    have h1 := b64Index_b64Char (b1 / 4) (by omega)
    have h2 := b64Index_b64Char (b1 % 4 * 16 + b2 / 16) (by omega)
    have h3 := b64Index_b64Char (b2 % 16 * 4) (by omega)
    have h4 := b64Char_ne_pad (b2 % 16 * 4) (by omega)
    simp [b64EncodeBytes, b64DecodeChars, h1, h2, h3, h4]
    constructor <;> omega
  | case4 b1 b2 b3 rest ih =>
    have hb1 : b1 < 256 := h b1 (by simp)
    have hb2 : b2 < 256 := h b2 (by simp)
    have hb3 : b3 < 256 := h b3 (by simp)
    have hrest : ∀ b ∈ rest, b < 256 := fun b hb => h b (by simp [hb])
    have h1 := b64Index_b64Char (b1 / 4) (by omega)
    have h2 := b64Index_b64Char (b1 % 4 * 16 + b2 / 16) (by omega)
    have h3 := b64Index_b64Char (b2 % 16 * 4 + b3 / 64) (by omega)
    have h4 := b64Index_b64Char (b3 % 64) (by omega)
    have h5 := b64Char_ne_pad (b2 % 16 * 4 + b3 / 64) (by omega)
    have h6 := b64Char_ne_pad (b3 % 64) (by omega)
    simp [b64EncodeBytes, b64DecodeChars, h1, h2, h3, h4, h5, h6, ih hrest]
    refine ⟨by omega, by omega, by omega⟩

theorem takeWhile_append_stop {α : Type} (p : α → Bool) (l : List α) (d : α)
    (rest : List α) (hl : ∀ c ∈ l, p c = true) (hd : p d = false) :
    (l ++ d :: rest).takeWhile p = l := by
  induction l with
  | nil => simp [List.takeWhile_cons, hd]
  | cons a t ihc =>
    have ha : p a = true := hl a (by simp)
    simp only [List.cons_append, List.takeWhile_cons, ha, if_true]
    rw [ihc (fun c hc => hl c (by simp [hc]))]

theorem parseHostname_mk (ip : List Char) (port : Nat)
    (h1 : ':' ∉ ip) (h2 : '/' ∉ ip) :
    parseHostname (mkPublisherUrl ip port) = some ip := by
  unfold parseHostname mkPublisherUrl
  rw [List.take_left' (by rfl), List.drop_left' (by rfl), if_pos rfl]
  have hl : ∀ c ∈ ip, (!(c == ':') && !(c == '/')) = true := by
    intro c hc
    have hc1 : c ≠ ':' := fun he => h1 (he ▸ hc)
    have hc2 : c ≠ '/' := fun he => h2 (he ▸ hc)
    simp [hc1, hc2]
  rw [takeWhile_append_stop _ _ _ _ hl (by simp)]

theorem getIPFromUrl_mk (ip : List Char) (port : Nat) (conn : Bool)
    (curr : Option Nat) (socks : List SockRec)
    (h1 : ':' ∉ ip) (h2 : '/' ∉ ip) :
    getIPFromUrl { publisherUrl := mkPublisherUrl ip port, isConnected := conn,
                   current := curr, socks := socks } = ip := by
  simp only [getIPFromUrl]
  rw [parseHostname_mk ip port h1 h2]

theorem connect_publisherUrl (st : ServiceState) :
    (connect st).1.publisherUrl = st.publisherUrl := by
  unfold connect
  cases hc : st.current with
  | none => simp
  | some i =>
    cases hs : st.socks[i]? with
    | none => simp [hs]
    | some s =>
      by_cases hcon : s.connected = true
      · simp [hs, hcon]
      · simp [hs, hcon]

theorem step_transport_silent (st : ServiceState) (a : Act)
    (hclosed : ∀ s ∈ st.socks, s.engineOpen = false) (ha : a.isTransport = true) :
    step st a = (st, []) := by
  cases a with
  | userConnect => simp [Act.isTransport] at ha
  | userDisconnect => simp [Act.isTransport] at ha
  | userChange ip port => simp [Act.isTransport] at ha
  | tConnect i =>
    simp only [step, onTransportConnect]
    cases hs : st.socks[i]? with
    | none => rfl
    | some s =>
      have hmem : s ∈ st.socks := by
        rcases List.getElem?_eq_some_iff.mp hs with ⟨hlt, hget⟩
        exact hget ▸ List.getElem_mem hlt
      simp [hs, hclosed s hmem]
  | tDisconnect i =>
    simp only [step, onTransportDisconnect]
    cases hs : st.socks[i]? with
    | none => rfl
    | some s =>
      have hmem : s ∈ st.socks := by
        rcases List.getElem?_eq_some_iff.mp hs with ⟨hlt, hget⟩
        exact hget ▸ List.getElem_mem hlt
      simp [hs, hclosed s hmem]
  | tError i =>
    simp only [step, onTransportError]
    cases hs : st.socks[i]? with
    | none => rfl
    | some s =>
      have hmem : s ∈ st.socks := by
        rcases List.getElem?_eq_some_iff.mp hs with ⟨hlt, hget⟩
        exact hget ▸ List.getElem_mem hlt
      simp [hs, hclosed s hmem]

theorem run_transport_silent (st : ServiceState) (l : List Act)
    (hclosed : ∀ s ∈ st.socks, s.engineOpen = false)
    (hl : ∀ a ∈ l, a.isTransport = true) :
    run st l = (st, []) := by
  induction l with
  | nil => rfl
  | cons a rest ihr =>
    have hstep := step_transport_silent st a hclosed (hl a (by simp))
    simp [run, hstep, ihr (fun b hb => hl b (by simp [hb]))]

theorem arrayBufferToBase64_eq (u : List (Fin 256)) :
    arrayBufferToBase64 u = Except.ok (b64EncodeBytes (u.map Fin.val)) := by
  have hb : ((u.map Fin.val).all (fun c => c < 256)) = true := by
    simp only [List.all_eq_true, decide_eq_true_eq]
    intro c hc
    rcases List.mem_map.mp hc with ⟨x, _, hx⟩
    exact hx ▸ x.isLt
  simp [arrayBufferToBase64, btoaFn, hb]

/-! ## Claim theorems -/

/-- C4: every 4-byte frame-rate payload is decoded as an IEEE-754
single-precision float in little-endian byte order and forwarded to the
frame-rate callback; in particular the payload `[0x00,0x00,0x80,0x3F]`
decodes to `1.0`. -/
theorem frameRate_decodes_ieee754_le (b0 b1 b2 b3 : Fin 256) :
    frameRateHandler [b0, b1, b2, b3] = Except.ok (decodeFloat32LE b0 b1 b2 b3) ∧
    frameRateHandler [0, 0, 128, 63] = Except.ok (F32.finite 1) := by
  refine ⟨rfl, ?_⟩
  show Except.ok (decodeFloat32LE 0 0 128 63) = Except.ok (F32.finite 1)
  have hv : decodeFloat32LE 0 0 128 63 = F32.finite 1 := by
    show decodeFloat32LE ⟨0, by omega⟩ ⟨0, by omega⟩ ⟨128, by omega⟩ ⟨63, by omega⟩ =
      F32.finite 1
    unfold decodeFloat32LE
    norm_num
  rw [hv]

/-- C5: for every binary image buffer, `arrayBufferToBase64` (byte to
single-byte character, then the base64 transform) produces a base64 string
whose base64 decoding reproduces the buffer byte for byte. -/
theorem arrayBufferToBase64_roundtrip (u : List (Fin 256)) :
    arrayBufferToBase64 u = Except.ok (b64EncodeBytes (u.map Fin.val)) ∧
    b64DecodeChars (b64EncodeBytes (u.map Fin.val)) = some (u.map Fin.val) := by
  refine ⟨arrayBufferToBase64_eq u, b64_roundtrip _ ?_⟩
  intro c hc
  rcases List.mem_map.mp hc with ⟨x, _, hx⟩
  exact hx ▸ x.isLt

/-- C7: the per-candidate liveness probe issues an HTTP GET to `/ping` on
the publisher's port with a 2000 ms timeout, succeeds exactly on an HTTP
200 response inside the window, and maps any non-200 response, network
failure, or timeout to `false` instead of raising. -/
theorem testConnection_spec (s : Nat) (ip : List Char) (port : Nat) :
    (testConnection (ProbeOutcome.response s) = true ↔ s = 200) ∧
    testConnection ProbeOutcome.networkError = false ∧
    testConnection ProbeOutcome.timedOut = false ∧
    (pingRequest ip port).method = ("GET").toList ∧
    (pingRequest ip port).url =
      httpScheme ++ ip ++ ':' :: (toString port).toList ++ ("/ping").toList ∧
    (pingRequest ip port).timeoutMs = 2000 := by
  refine ⟨?_, rfl, rfl, rfl, rfl, rfl⟩
  simp [testConnection, responseOk]
  omega

/-- C9: the `update_feed` handler base64-encodes a raw `ArrayBuffer` or
`Uint8Array` payload and fires the RGB callback with the result, passes a
string payload to the callback unchanged, and logs and drops any other
payload shape without firing the callback. -/
theorem updateFeed_payload_shapes (u v : List (Fin 256)) (s : List Char) :
    updateFeedHandler (FeedPayload.arrayBuffer u) =
      Except.ok (some (b64EncodeBytes (u.map Fin.val))) ∧
    updateFeedHandler (FeedPayload.uint8Array v) =
      Except.ok (some (b64EncodeBytes (v.map Fin.val))) ∧
    updateFeedHandler (FeedPayload.str s) = Except.ok (some s) ∧
    updateFeedHandler FeedPayload.other = Except.ok none := by
  refine ⟨?_, ?_, rfl, rfl⟩
  · simp [updateFeedHandler, updateFeedHandlerBody, arrayBufferToBase64_eq, Except.map]
  · simp [updateFeedHandler, updateFeedHandlerBody, arrayBufferToBase64_eq, Except.map]

/-- C6: discovery probes the candidates strictly in list order, returns
the first candidate whose probe succeeds (for `[A,B,C]` with only `C`
reachable it probes `A` and `B` first and returns `C`), and returns `none`
without raising when every candidate fails. -/
theorem discovery_order_first_success (probe : List Char → Bool)
    (A B C : List Char) (l : List (List Char))
    (hA : probe A = false) (hB : probe B = false) (hC : probe C = true)
    (hl : ∀ ip ∈ l, probe ip = false) :
    discoverLoop probe [A, B, C] = (some C, [A, B, C]) ∧
    discoverLoop probe l = (none, l) ∧
    discoverPublisher probe = (discoverLoop probe testIPs).1 := by
  refine ⟨by simp [discoverLoop, hA, hB, hC], ?_, rfl⟩
  induction l with
  | nil => rfl
  | cons a t iht =>
    have ha := hl a (by simp)
    simp [discoverLoop, ha, iht (fun b hb => hl b (by simp [hb]))]

/-- C6 witness: the candidate list of the source with only the last
candidate reachable. -/
theorem discovery_order_first_success_witness :
    discoverLoop (fun ip => ip == ("localhost").toList)
        [("10.0.0.32").toList, ("127.0.0.1").toList, ("localhost").toList] =
      (some (("localhost").toList),
       [("10.0.0.32").toList, ("127.0.0.1").toList, ("localhost").toList]) ∧
    discoverLoop (fun ip => ip == ("localhost").toList)
        [("10.0.0.32").toList, ("127.0.0.1").toList] =
      (none, [("10.0.0.32").toList, ("127.0.0.1").toList]) ∧
    discoverPublisher (fun ip => ip == ("localhost").toList) =
      (discoverLoop (fun ip => ip == ("localhost").toList) testIPs).1 :=
  discovery_order_first_success (fun ip => ip == ("localhost").toList)
    (("10.0.0.32").toList) (("127.0.0.1").toList) (("localhost").toList)
    [("10.0.0.32").toList, ("127.0.0.1").toList]
    (by decide) (by decide) (by decide) (by decide)

/-- C10: `getConnectedIP()` returns the hostname of the configured
publisher URL regardless of connection state — for any socket list,
current-socket slot, and `isConnected` flag — and after
`changeConnection(newIP)` it returns the new address. -/
theorem getConnectedIP_reports_configuration (ip newIP : List Char)
    (port port2 : Nat) (conn : Bool) (curr : Option Nat)
    (socks : List SockRec) (st : ServiceState)
    (h1 : ':' ∉ ip) (h2 : '/' ∉ ip) (h3 : ':' ∉ newIP) (h4 : '/' ∉ newIP) :
    getConnectedIP { publisherUrl := mkPublisherUrl ip port, isConnected := conn,
                     current := curr, socks := socks } = ip ∧
    getConnectedIP (changeConnection st newIP port2).1 = newIP := by
  constructor
  · unfold getConnectedIP
    exact getIPFromUrl_mk ip port conn curr socks h1 h2
  · unfold getConnectedIP getIPFromUrl
    have hurl : (changeConnection st newIP port2).1.publisherUrl =
        mkPublisherUrl newIP port2 := by
      unfold changeConnection
      rw [connect_publisherUrl]
    rw [hurl, parseHostname_mk newIP port2 h3 h4]

/-- C10 witness: a disconnected service constructed for 10.0.0.32, and a
`changeConnection` to 127.0.0.1 while a connect attempt is pending. -/
theorem getConnectedIP_reports_configuration_witness :
    getConnectedIP { publisherUrl := mkPublisherUrl (("10.0.0.32").toList) 27182,
                     isConnected := false, current := none, socks := [] } =
      ("10.0.0.32").toList ∧
    getConnectedIP (changeConnection (connect (mkService (("10.0.0.32").toList) 27182)).1
        (("127.0.0.1").toList) 27182).1 = ("127.0.0.1").toList :=
  getConnectedIP_reports_configuration (("10.0.0.32").toList) (("127.0.0.1").toList)
    27182 27182 false none [] (connect (mkService (("10.0.0.32").toList) 27182)).1
    (by decide) (by decide) (by decide) (by decide)

/-- C1 counterexample: a frame-rate payload of three bytes makes
`bytesToFloat`'s `getFloat32` raise `RangeError`, and the `frame_rate`
handler has no `try/catch`, so the error escapes the handler instead of
being logged and dropped. -/
theorem frameRate_short_payload_raises :
    frameRateHandler [0, 0, 0] = Except.error JsErr.rangeError := rfl

/-- C1 amended: the vitals, RGB-frame and thermal-frame handlers wrap their
decoding in `try/catch`, so a malformed payload never raises across the
handler boundary (it is logged and the update dropped); the frame-rate
handler alone performs no catching, and a payload shorter than 4 bytes
raises `RangeError` out of it. -/
theorem decoder_error_containment_amended (d : ChipDataM) (p : FeedPayload)
    (u : List (Fin 256)) (fb : List (Fin 256)) (hfb : fb.length < 4) :
    doesNotRaise (handleChipUpdate d) = true ∧
    doesNotRaise (updateFeedHandler p) = true ∧
    doesNotRaise (thermalImageHandler u) = true ∧
    frameRateHandler fb = Except.error JsErr.rangeError := by
  refine ⟨rfl, rfl, rfl, ?_⟩
  rcases fb with _ | ⟨a, _ | ⟨b, _ | ⟨c, _ | ⟨e, t⟩⟩⟩⟩
  · rfl
  · rfl
  · rfl
  · rfl
  · simp only [List.length_cons] at hfb
    omega

/-- C1 amended witness: concrete payloads for each category, and a
three-byte frame-rate payload. -/
theorem decoder_error_containment_amended_witness :
    doesNotRaise (handleChipUpdate none) = true ∧
    doesNotRaise (updateFeedHandler FeedPayload.other) = true ∧
    doesNotRaise (thermalImageHandler []) = true ∧
    frameRateHandler [0, 0, 1] = Except.error JsErr.rangeError :=
  decoder_error_containment_amended none FeedPayload.other [] [0, 0, 1] (by decide)

/-- C3 counterexample: a vitals record whose `chip_data` object is present
but lacks the heart-rate field does not raise, yet the vitals callback
fires with an undefined heart rate — the update is not dropped, so the
consumer's last-decoded vitals state is overwritten. -/
theorem missing_heartrate_fires_callback :
    handleChipUpdate
        (some (some ⟨none, some (JsPrim.num 18), some (JsPrim.num 98), none⟩)) =
      Except.ok (some ⟨none, some (JsPrim.num 18), some (JsPrim.num 98), none⟩) := rfl

/-- C3 amended: vitals decoding never raises to the caller; a record whose
`chip_data` container is null or absent is caught and dropped with no
callback; but a record whose `chip_data` object merely lacks a field (for
example heart rate) fires the vitals callback with that field undefined,
superseding the last successfully decoded vitals. -/
theorem handleChipUpdate_amended (d : ChipDataM) (c : ChipInner) :
    doesNotRaise (handleChipUpdate d) = true ∧
    handleChipUpdate none = Except.ok none ∧
    handleChipUpdate (some none) = Except.ok none ∧
    handleChipUpdate (some (some c)) =
      Except.ok (some ⟨c.heartrate, c.resprate, c.temp, c.chip_img⟩) := by
  exact ⟨rfl, rfl, rfl, rfl⟩

/-- C2 counterexample: calling `changeConnection` while a connect attempt
is still pending leaves two live sockets — `connect()` only disconnects the
prior socket when `socket.connected` is true, so the pending attempt keeps
running alongside the new one. -/
theorem changeConnection_pending_two_live :
    liveCount (changeConnection (connect (mkService (("10.0.0.32").toList) 27182)).1
        (("127.0.0.1").toList) 27182).1 = 2 ∧
    ((changeConnection (connect (mkService (("10.0.0.32").toList) 27182)).1
        (("127.0.0.1").toList) 27182).1.socks.map (fun s => s.engineOpen)) =
      [true, true] := ⟨rfl, rfl⟩

/-- C2 amended: `changeConnection(newIP)` coincides with `disconnect()`
followed by `connect()` to the new endpoint (in any state whose
`isConnected` flag is only set when the current socket really is
connected), because `disconnect()` is equally a no-op on a pending socket:
an established prior connection is fully closed before the new connect,
but a still-pending connect attempt is left open, so after
`changeConnection` during a pending attempt two connect attempts are live
rather than one. -/
theorem changeConnection_amended (st : ServiceState) (ip : List Char) (port : Nat)
    (hcons : st.isConnected = true → CurrentConnected st) :
    changeConnection st ip port =
      ((connect { (disconnect st).1 with publisherUrl := mkPublisherUrl ip port }).1,
       (disconnect st).2 ++
         (connect { (disconnect st).1 with publisherUrl := mkPublisherUrl ip port }).2) ∧
    (∀ i s, st.current = some i → st.socks[i]? = some s →
      (changeConnection st ip port).1.socks[i]? =
        some (if s.connected then closeSock s else s)) := by
  constructor
  · rcases hc : st.current with _ | i
    · have hic : st.isConnected = false := by
        cases hb : st.isConnected with
        | false => rfl
        | true =>
          rcases hcons hb with ⟨j, s, hj, hsj, hcj⟩
          rw [hc] at hj
          cases hj
      simp [changeConnection, connect, disconnect, hc, hic]
    · rcases hs : st.socks[i]? with _ | s
      · have hic : st.isConnected = false := by
          cases hb : st.isConnected with
          | false => rfl
          | true =>
            rcases hcons hb with ⟨j, s, hj, hsj, hcj⟩
            rw [hc] at hj
            injection hj with hij
            rw [← hij, hs] at hsj
            cases hsj
        simp [changeConnection, connect, disconnect, hc, hs, hic]
      · by_cases hcon : s.connected = true
        · have hlt : i < st.socks.length := (List.getElem?_eq_some_iff.mp hs).1
          simp [changeConnection, connect, disconnect, hc, hs, hcon, closeSock,
            List.getElem?_set_self hlt, List.length_set]
        · have hic : st.isConnected = false := by
            cases hb : st.isConnected with
            | false => rfl
            | true =>
              rcases hcons hb with ⟨j, s2, hj, hsj, hcj⟩
              rw [hc] at hj
              injection hj with hij
              rw [← hij, hs] at hsj
              injection hsj with hss
              rw [← hss] at hcj
              exact absurd hcj hcon
          simp [changeConnection, connect, disconnect, hc, hs, hcon, hic]
  · intro i s hci hsi
    have hlt : i < st.socks.length := (List.getElem?_eq_some_iff.mp hsi).1
    by_cases hcon : s.connected = true
    · have hlt2 : i < (st.socks.set i (closeSock s)).length := by
        rw [List.length_set]
        exact hlt
      simp [changeConnection, connect, hci, hsi, hcon,
        List.getElem?_append_left hlt2, List.getElem?_set_self hlt]
    · simp [changeConnection, connect, hci, hsi, hcon,
        List.getElem?_append_left hlt]

/-- C2 amended witness: in a pending-connect state (socket created, not yet
connected) the prior socket record is left untouched by `changeConnection`. -/
theorem changeConnection_amended_witness :
    (changeConnection (connect (mkService (("10.0.0.32").toList) 27182)).1
        (("127.0.0.1").toList) 27182).1.socks[0]? =
      some (if (SockRec.mk (mkPublisherUrl (("10.0.0.32").toList) 27182) true
                false).connected
            then closeSock
              (SockRec.mk (mkPublisherUrl (("10.0.0.32").toList) 27182) true false)
            else SockRec.mk (mkPublisherUrl (("10.0.0.32").toList) 27182) true false) :=
  (changeConnection_amended (connect (mkService (("10.0.0.32").toList) 27182)).1
      (("127.0.0.1").toList) 27182 (fun hb => absurd hb (by decide))).2 0
    (SockRec.mk (mkPublisherUrl (("10.0.0.32").toList) 27182) true false) rfl rfl

/-- C8: after a successful handshake the status callback receives exactly
one `(Active, address)` notification, a subsequent manual `disconnect()`
yields exactly one `(Inactive, "Disconnected")` notification, and no
further status-callback invocations occur for any subsequent transport
events (the closed socket delivers none). -/
theorem connect_disconnect_status_trace (ip : List Char) (extra : List Act)
    (h1 : ':' ∉ ip) (h2 : '/' ∉ ip)
    (hextra : ∀ a ∈ extra, a.isTransport = true) :
    (run (mkService ip 27182)
        (Act.userConnect :: Act.tConnect 0 :: Act.userDisconnect :: extra)).2 =
      [(ConnStatus.Active, ip), (ConnStatus.Inactive, ("Disconnected").toList)] := by
  have hhost := parseHostname_mk ip 27182 h1 h2
  have s1 : step (mkService ip 27182) Act.userConnect =
      ({ publisherUrl := mkPublisherUrl ip 27182, isConnected := false,
         current := some 0,
         socks := [SockRec.mk (mkPublisherUrl ip 27182) true false] }, []) := by
    simp [step, connect, mkService]
  have s2 : step
      ({ publisherUrl := mkPublisherUrl ip 27182, isConnected := false,
         current := some 0,
         socks := [SockRec.mk (mkPublisherUrl ip 27182) true false] } : ServiceState)
      (Act.tConnect 0) =
      ({ publisherUrl := mkPublisherUrl ip 27182, isConnected := true,
         current := some 0,
         socks := [SockRec.mk (mkPublisherUrl ip 27182) true true] },
       [(ConnStatus.Active, ip)]) := by
    simp [step, onTransportConnect, getIPFromUrl, hhost]
  have s3 : step
      ({ publisherUrl := mkPublisherUrl ip 27182, isConnected := true,
         current := some 0,
         socks := [SockRec.mk (mkPublisherUrl ip 27182) true true] } : ServiceState)
      Act.userDisconnect =
      ({ publisherUrl := mkPublisherUrl ip 27182, isConnected := false,
         current := some 0,
         socks := [SockRec.mk (mkPublisherUrl ip 27182) false false] },
       [(ConnStatus.Inactive, ("Disconnected").toList)]) := by
    simp [step, disconnect, closeSock]
  have s4 : run
      ({ publisherUrl := mkPublisherUrl ip 27182, isConnected := false,
         current := some 0,
         socks := [SockRec.mk (mkPublisherUrl ip 27182) false false] } : ServiceState)
      extra =
      ({ publisherUrl := mkPublisherUrl ip 27182, isConnected := false,
         current := some 0,
         socks := [SockRec.mk (mkPublisherUrl ip 27182) false false] }, []) := by
    refine run_transport_silent _ extra ?_ hextra
    intro s hsmem
    simp at hsmem
    simp [hsmem]
  simp [run, s1, s2, s3, s4]

/-- C8 witness: the scenario on the default address, followed by spurious
transport events on the closed socket. -/
theorem connect_disconnect_status_trace_witness :
    (run (mkService (("10.0.0.32").toList) 27182)
        (Act.userConnect :: Act.tConnect 0 :: Act.userDisconnect ::
          [Act.tConnect 0, Act.tDisconnect 0, Act.tError 0])).2 =
      [(ConnStatus.Active, ("10.0.0.32").toList),
       (ConnStatus.Inactive, ("Disconnected").toList)] :=
  connect_disconnect_status_trace (("10.0.0.32").toList)
    [Act.tConnect 0, Act.tDisconnect 0, Act.tError 0]
    (by decide) (by decide) (by decide)
